import Mathlib

/-!
Verification of the 1&1 unlimited-on-demand automation against its code.

Shallow embedding conventions:
* Python floats are modelled as rationals (`ℚ`); machine timestamps are
  rationals as well.
* Python dictionaries with a fixed key set become structures; a key that may
  be absent becomes an `Option` field (`none` = key absent).  `dict.get k d`
  becomes `Option.getD`.
* Fallible upstream interactions (HTTP responses, login attempts) are passed
  in explicitly as data, so every embedded operation is a total function.
* Logging calls are pure observations in the source and are dropped.
-/

namespace OneUndOne

/-- Python `int(x)` applied to a real number: truncation toward zero. -/
def pyInt (q : ℚ) : ℤ := if q < 0 then -⌊-q⌋ else ⌊q⌋

/-- Round-half-to-even on rationals, the rounding mode of Python `round`. -/
def roundHalfEven (q : ℚ) : ℤ :=
  let f := ⌊q⌋
  let r := q - f
  if r < 1/2 then f
  else if 1/2 < r then f + 1
  else if f % 2 = 0 then f else f + 1

/-- Python `round(q, n)`: banker's rounding at `n` decimal digits. -/
def pyRound (n : ℕ) (q : ℚ) : ℚ := (roundHalfEven (q * 10 ^ n) : ℚ) / 10 ^ n

/-!
## `src/utils/interval_calculator.py`

The dictionaries handled by `calculate_next_check_interval`:
`current_data` holds the key `"datenvolumen"` (a volume dictionary) and the
history keys `"letzte_messung"` / `"letzte_messung_zeit"`; the volume
dictionary holds `"verbraucht_gb"`, `"highspeed_limit_gb"`,
`"aktualisiert_timestamp"` and `"kann_nachbuchen"`.  The Python source reads
the ambient clock (`time.time()`) when `"aktualisiert_timestamp"` is absent;
the embedding passes that clock value in as the explicit argument `now`.
-/

/-- The volume dictionary (`summary["datenvolumen"]`) as consumed by the
interval calculator and the monitor. -/
structure DataVolume where
  verbraucht_gb : Option ℚ := none
  highspeed_limit_gb : Option ℚ := none
  aktualisiert_timestamp : Option ℚ := none
  kann_nachbuchen : Option Bool := none
deriving DecidableEq

def DataVolume.empty : DataVolume := {}

/-- The `current_data` dictionary passed to `calculate_next_check_interval`. -/
structure CurrentData where
  datenvolumen : Option DataVolume := none
  letzte_messung : Option DataVolume := none
  letzte_messung_zeit : Option ℚ := none
deriving DecidableEq

/-- `calculate_next_check_interval` (interval_calculator.py:13-114).
Returns the next check interval in seconds and, when computable, the
estimated time in seconds until the threshold is reached. -/
def calculate_next_check_interval (current_data : CurrentData) (threshold_gb : ℚ)
    (max_interval_seconds min_interval_seconds : ℤ) (safety_factor : ℚ)
    (now : ℚ) : ℤ × Option ℚ :=
  match current_data.datenvolumen with
  | none => (max_interval_seconds, none)
  | some data_volume =>
    let verbraucht_gb := data_volume.verbraucht_gb.getD 0
    let highspeed_limit_gb := data_volume.highspeed_limit_gb.getD 0
    let remaining_gb := highspeed_limit_gb - verbraucht_gb
    let aktualisiert_timestamp := data_volume.aktualisiert_timestamp.getD now
    if remaining_gb ≤ threshold_gb then
      (min_interval_seconds, some 0)
    else
      match current_data.letzte_messung, current_data.letzte_messung_zeit with
      | some letzte_messung, some letzte_zeit =>
        let letzte_verbraucht_gb := letzte_messung.verbraucht_gb.getD verbraucht_gb
        let zeit_diff_sekunden := aktualisiert_timestamp - letzte_zeit
        if 0 < zeit_diff_sekunden ∧ letzte_verbraucht_gb < verbraucht_gb then
          let verbrauch_diff_gb := verbraucht_gb - letzte_verbraucht_gb
          let verbrauchsrate_gb_pro_sekunde := verbrauch_diff_gb / zeit_diff_sekunden
          if 1/10000000 < verbrauchsrate_gb_pro_sekunde then
            let sekunden_bis_schwellenwert :=
              (remaining_gb - threshold_gb) / verbrauchsrate_gb_pro_sekunde
            let optimales_intervall := pyInt (sekunden_bis_schwellenwert * safety_factor)
            let intervall := max (min optimales_intervall max_interval_seconds) min_interval_seconds
            (intervall, some sekunden_bis_schwellenwert)
          else
            (max_interval_seconds, none)
        else
          (max_interval_seconds, none)
      | _, _ => (max_interval_seconds, none)

/-- C1: for a previous/current measurement pair where the remaining volume
exceeds the threshold, the update-time difference and the consumed-volume
difference are positive, and the consumption rate exceeds the epsilon, the
function returns `seconds_to_threshold = (remaining - threshold) / rate`
exactly and `next_interval = clamp(int(seconds_to_threshold * safety_factor),
min_interval, max_interval)`. -/
theorem calc_interval_rate_branch_exact
    (v l t lv lz th sf now : ℚ) (mx mn : ℤ)
    (hrem : th < l - v) (htime : 0 < t - lz) (hcons : lv < v)
    (hrate : 1/10000000 < (v - lv) / (t - lz)) :
    calculate_next_check_interval
      { datenvolumen := some { verbraucht_gb := some v, highspeed_limit_gb := some l,
                               aktualisiert_timestamp := some t },
        letzte_messung := some { verbraucht_gb := some lv },
        letzte_messung_zeit := some lz }
      th mx mn sf now
    = (max (min (pyInt ((l - v - th) / ((v - lv) / (t - lz)) * sf)) mx) mn,
       some ((l - v - th) / ((v - lv) / (t - lz)))) := by
  simp only [calculate_next_check_interval, Option.getD_some]
  rw [if_neg (not_le.mpr hrem), if_pos ⟨htime, hcons⟩, if_pos hrate]

/-- C1 witness (scenario A): previous consumed 2.0 GB at time 0, current
consumed 2.5 GB with limit 10 GB at time 300, threshold 1 GB, safety factor
0.7: seconds to threshold is 3900 and the interval is
`clamp(2730, 30, 300) = 300`. -/
theorem calc_interval_rate_branch_scenarioA :
    ((1 : ℚ) < 10 - 5/2 ∧ (0 : ℚ) < 300 - 0 ∧ (2 : ℚ) < 5/2 ∧
      (1 : ℚ)/10000000 < (5/2 - 2) / (300 - 0)) ∧
    calculate_next_check_interval
      { datenvolumen := some { verbraucht_gb := some (5/2), highspeed_limit_gb := some 10,
                               aktualisiert_timestamp := some 300 },
        letzte_messung := some { verbraucht_gb := some 2 },
        letzte_messung_zeit := some 0 }
      1 300 30 (7/10) 0 = (300, some 3900) :=
  ⟨⟨by norm_num, by norm_num, by norm_num, by norm_num⟩, by
    rw [calc_interval_rate_branch_exact (5/2) 10 300 2 0 1 (7/10) 0 300 30
      (by norm_num) (by norm_num) (by norm_num) (by norm_num)]
    norm_num [pyInt]⟩

/-- C2: whenever the current snapshot is present and its remaining volume is
at most the threshold, the function returns `(min_interval, 0)` regardless of
the history fields. -/
theorem calc_interval_below_threshold_min
    (dv : DataVolume) (lm : Option DataVolume) (lz : Option ℚ)
    (th sf now : ℚ) (mx mn : ℤ)
    (hdv : dv.highspeed_limit_gb.getD 0 - dv.verbraucht_gb.getD 0 ≤ th) :
    calculate_next_check_interval ⟨some dv, lm, lz⟩ th mx mn sf now
      = (mn, some 0) := by
  simp only [calculate_next_check_interval]
  rw [if_pos hdv]

/-- C2 witness: snapshot 9.5 GB consumed of 10 GB, threshold 1 GB, with a
history pair supplied: the result is `(min_interval, 0) = (30, 0)`. -/
theorem calc_interval_below_threshold_min_witness :
    ((10 : ℚ) - 19/2 ≤ 1) ∧
    calculate_next_check_interval
      { datenvolumen := some { verbraucht_gb := some (19/2), highspeed_limit_gb := some 10,
                               aktualisiert_timestamp := some 300 },
        letzte_messung := some { verbraucht_gb := some 2 },
        letzte_messung_zeit := some 0 }
      1 300 30 (7/10) 0 = (30, some 0) :=
  ⟨by norm_num,
   calc_interval_below_threshold_min
     { verbraucht_gb := some (19/2), highspeed_limit_gb := some 10,
       aktualisiert_timestamp := some 300 }
     (some { verbraucht_gb := some 2 }) (some 0) 1 (7/10) 0 300 30 (by norm_num)⟩

/-- C3: when the remaining volume exceeds the threshold and the history is
absent, or the update-time difference is not positive, or the consumed volume
has not increased, or the computed rate does not exceed the epsilon, the
function returns `(max_interval, none)`. -/
theorem calc_interval_insufficient_data_max
    (cd : CurrentData) (dv : DataVolume) (th sf now : ℚ) (mx mn : ℤ)
    (hdv : cd.datenvolumen = some dv)
    (hrem : th < dv.highspeed_limit_gb.getD 0 - dv.verbraucht_gb.getD 0)
    (hinsuff :
      cd.letzte_messung = none ∨ cd.letzte_messung_zeit = none ∨
      ∀ lm lz, cd.letzte_messung = some lm → cd.letzte_messung_zeit = some lz →
        (dv.aktualisiert_timestamp.getD now - lz ≤ 0 ∨
         dv.verbraucht_gb.getD 0 ≤ lm.verbraucht_gb.getD (dv.verbraucht_gb.getD 0) ∨
         (dv.verbraucht_gb.getD 0 - lm.verbraucht_gb.getD (dv.verbraucht_gb.getD 0)) /
           (dv.aktualisiert_timestamp.getD now - lz) ≤ 1/10000000)) :
    calculate_next_check_interval cd th mx mn sf now = (mx, none) := by
  obtain ⟨dvo, lmo, lzo⟩ := cd
  simp only at hdv
  subst hdv
  rcases lmo with _ | lm
  · simp only [calculate_next_check_interval]
    rw [if_neg (not_le.mpr hrem)]
  · rcases lzo with _ | lz
    · simp only [calculate_next_check_interval]
      rw [if_neg (not_le.mpr hrem)]
    · simp only [calculate_next_check_interval]
      rw [if_neg (not_le.mpr hrem)]
      rcases hinsuff with h | h | h
      · exact absurd h (by simp)
      · exact absurd h (by simp)
      · rcases h lm lz rfl rfl with h1 | h2 | h3
        · rw [if_neg (by intro hc; exact absurd hc.1 (not_lt.mpr h1))]
        · rw [if_neg (by intro hc; exact absurd hc.2 (not_lt.mpr h2))]
        · by_cases hc : 0 < dv.aktualisiert_timestamp.getD now - lz ∧
              lm.verbraucht_gb.getD (dv.verbraucht_gb.getD 0) < dv.verbraucht_gb.getD 0
          · rw [if_pos hc, if_neg (not_lt.mpr h3)]
          · rw [if_neg hc]

/-- C3 witness: a snapshot above the threshold with no previous measurement
yields `(max_interval, none) = (300, none)`. -/
theorem calc_interval_insufficient_data_max_witness :
    ({ datenvolumen := some { verbraucht_gb := some 2, highspeed_limit_gb := some 10,
                              aktualisiert_timestamp := some 5 } : CurrentData}.datenvolumen
        = some { verbraucht_gb := some 2, highspeed_limit_gb := some 10,
                 aktualisiert_timestamp := some 5 } ∧
      (1 : ℚ) < 10 - 2) ∧
    calculate_next_check_interval
      { datenvolumen := some { verbraucht_gb := some 2, highspeed_limit_gb := some 10,
                               aktualisiert_timestamp := some 5 } }
      1 300 30 (7/10) 0 = (300, none) :=
  ⟨⟨rfl, by norm_num⟩,
   calc_interval_insufficient_data_max
     { datenvolumen := some { verbraucht_gb := some 2, highspeed_limit_gb := some 10,
                              aktualisiert_timestamp := some 5 } }
     { verbraucht_gb := some 2, highspeed_limit_gb := some 10,
       aktualisiert_timestamp := some 5 }
     1 (7/10) 0 300 30 rfl (by norm_num) (Or.inl rfl)⟩

/-- C9 counterexample: the claim asserts determinism of
`calculate_next_check_interval` even for inputs whose volume dictionary lacks
the `aktualisiert_timestamp` field.  On such inputs the source reads the
ambient clock (`time.time()`, interval_calculator.py:51), modelled by the
explicit `now` argument: two calls at clock values 100 and 200 on the same
data yield different outputs (estimated seconds 700 versus 1400). -/
theorem calc_interval_now_dependent_cx :
    calculate_next_check_interval
      { datenvolumen := some { verbraucht_gb := some 2, highspeed_limit_gb := some 10 },
        letzte_messung := some { verbraucht_gb := some 1 },
        letzte_messung_zeit := some 0 }
      1 300 30 (7/10) 100
    ≠ calculate_next_check_interval
      { datenvolumen := some { verbraucht_gb := some 2, highspeed_limit_gb := some 10 },
        letzte_messung := some { verbraucht_gb := some 1 },
        letzte_messung_zeit := some 0 }
      1 300 30 (7/10) 200 := by
  norm_num [calculate_next_check_interval, pyInt]

/-- C9 (amended): `calculate_next_check_interval` is deterministic — two
calls with identical arguments at different ambient clock values agree —
whenever the volume dictionary, if present, carries the
`aktualisiert_timestamp` field.  (When the field is absent the source falls
back to `time.time()` and the result may depend on the call time.) -/
theorem calc_interval_deterministic_with_timestamp
    (cd : CurrentData) (th sf nowA nowB : ℚ) (mx mn : ℤ)
    (h : ∀ dv, cd.datenvolumen = some dv → dv.aktualisiert_timestamp.isSome = true) :
    calculate_next_check_interval cd th mx mn sf nowA =
    calculate_next_check_interval cd th mx mn sf nowB := by
  obtain ⟨dvo, lmo, lzo⟩ := cd
  cases dvo with
  | none => rfl
  | some dv =>
    obtain ⟨t, ht⟩ := Option.isSome_iff_exists.mp (h dv rfl)
    simp only [calculate_next_check_interval, ht, Option.getD_some]

/-- C9 witness: on a snapshot carrying the timestamp field the outputs at
clock values 100 and 200 coincide. -/
theorem calc_interval_deterministic_with_timestamp_witness :
    (∀ dv, ({ datenvolumen := some { verbraucht_gb := some 2, highspeed_limit_gb := some 10,
                                     aktualisiert_timestamp := some 50 } : CurrentData}.datenvolumen
        = some dv → dv.aktualisiert_timestamp.isSome = true)) ∧
    calculate_next_check_interval
      { datenvolumen := some { verbraucht_gb := some 2, highspeed_limit_gb := some 10,
                               aktualisiert_timestamp := some 50 } }
      1 300 30 (7/10) 100 =
    calculate_next_check_interval
      { datenvolumen := some { verbraucht_gb := some 2, highspeed_limit_gb := some 10,
                               aktualisiert_timestamp := some 50 } }
      1 300 30 (7/10) 200 :=
  ⟨fun dv hdv => by cases hdv; rfl,
   calc_interval_deterministic_with_timestamp
     { datenvolumen := some { verbraucht_gb := some 2, highspeed_limit_gb := some 10,
                              aktualisiert_timestamp := some 50 } }
     1 (7/10) 100 200 300 30 (fun dv hdv => by cases hdv; rfl)⟩

/-!
## `src/utils/monitor.py` — `DataMonitor`

The monitor's mutable attributes become a state structure; a poll cycle
(`check_data_usage`) becomes a state transformer taking the fetched summary,
the current wall-clock time, and the outcome of the refill request (when one
is issued) as explicit inputs.  `update_check_interval` only mutates
`check_interval_seconds` in this state view (its `schedule` bookkeeping has
no further observable state here); its lock behaviour is modelled separately
below.
-/

/-- The result of `api.get_consumption_summary` as read by the monitor (only
the `"datenvolumen"` key is consulted). -/
structure Summary where
  datenvolumen : Option DataVolume := none
deriving DecidableEq

/-- The mutable attributes of `DataMonitor` used by the claims. -/
structure MonitorState where
  threshold_gb : ℚ
  check_interval_seconds : ℤ
  original_check_interval_seconds : ℤ
  fast_check_interval_seconds : ℤ
  max_check_interval_seconds : ℤ
  initial_dynamic_interval_seconds : ℤ
  dynamic_interval : Bool
  below_threshold : Bool
  first_dynamic_check : Bool
  history : Option (DataVolume × ℚ)
  last_check : Option (Summary × ℚ)
deriving DecidableEq

/-- What a poll cycle reports (monitor.py:209-243). -/
structure CycleReport where
  erfolg_abruf : Bool
  refill_invoked : Bool
  aktion_erforderlich : Bool
  nachbuchung_nicht_moeglich : Bool
deriving DecidableEq

/-- `DataMonitor.update_check_interval` (monitor.py:278-303), state view. -/
def update_check_interval (st : MonitorState) (seconds : ℤ) : MonitorState :=
  { st with check_interval_seconds := seconds }

/-- `DataMonitor.increase_highspeed_volume` (monitor.py:249-276), state
view: on a successful refill with the sticky flag set, the flag is cleared
and the interval reset to the original value. -/
def increase_highspeed_volume (st : MonitorState) (refill_success : Bool) : MonitorState :=
  if refill_success ∧ st.below_threshold then
    update_check_interval { st with below_threshold := false }
      st.original_check_interval_seconds
  else st

/-- History bookkeeping of a cycle (monitor.py:121-150): when a previous
fetch exists, record its volume dictionary and upstream update time as the
measurement history, then store the current fetch. -/
def history_step (st : MonitorState) (summary : Summary) (current_time : ℚ) : MonitorState :=
  { st with
    history :=
      match st.last_check with
      | some (last_data, last_time) =>
        let letzte_dv := last_data.datenvolumen.getD DataVolume.empty
        some (letzte_dv, letzte_dv.aktualisiert_timestamp.getD last_time)
      | none => st.history,
    last_check := some (summary, current_time) }

/-- The estimator call of the dynamic branch (monitor.py:165-175): current
data merged with the history keys, threshold and interval bounds from the
monitor, default safety factor 0.7. -/
def dynamic_next_interval (st : MonitorState) (summary : Summary) (now : ℚ) : ℤ × Option ℚ :=
  calculate_next_check_interval
    { datenvolumen := summary.datenvolumen,
      letzte_messung := st.history.map Prod.fst,
      letzte_messung_zeit := st.history.map Prod.snd }
    st.threshold_gb st.max_check_interval_seconds st.fast_check_interval_seconds
    (7/10) now

/-- Interval maintenance of a cycle (monitor.py:155-207): dynamic mode uses
the initial interval on the first check and the estimator afterwards;
non-dynamic mode is the edge-triggered two-state hysteresis. -/
def interval_step (st : MonitorState) (summary : Summary) (below : Bool)
    (current_time : ℚ) : MonitorState :=
  if st.dynamic_interval then
    if st.first_dynamic_check then
      update_check_interval { st with first_dynamic_check := false }
        st.initial_dynamic_interval_seconds
    else
      update_check_interval st (dynamic_next_interval st summary current_time).1
  else
    if below ∧ ¬ st.below_threshold then
      update_check_interval { st with below_threshold := true }
        st.fast_check_interval_seconds
    else if ¬ below ∧ st.below_threshold then
      update_check_interval { st with below_threshold := false }
        st.original_check_interval_seconds
    else st

/-- `DataMonitor.check_data_usage` (monitor.py:89-247) as a state
transformer.  `refill_success` is the outcome `result["erfolg"]` of the
refill request, consulted only when the cycle invokes one. -/
def check_data_usage (st : MonitorState) (summary : Summary) (current_time : ℚ)
    (refill_success : Bool) : MonitorState × CycleReport :=
  match summary.datenvolumen with
  | none =>
    (st, { erfolg_abruf := false, refill_invoked := false,
           aktion_erforderlich := false, nachbuchung_nicht_moeglich := false })
  | some data_volume =>
    let verbraucht_gb := data_volume.verbraucht_gb.getD 0
    let highspeed_limit_gb := data_volume.highspeed_limit_gb.getD 0
    let remaining_gb := highspeed_limit_gb - verbraucht_gb
    let kann_nachbuchen := data_volume.kann_nachbuchen.getD false
    let st2 := history_step st summary current_time
    let below : Bool := decide (remaining_gb < st.threshold_gb)
    let st3 := interval_step st2 summary below current_time
    if below ∧ kann_nachbuchen then
      (increase_highspeed_volume st3 refill_success,
       { erfolg_abruf := true, refill_invoked := true,
         aktion_erforderlich := true, nachbuchung_nicht_moeglich := false })
    else if below ∧ ¬ kann_nachbuchen then
      (st3, { erfolg_abruf := true, refill_invoked := false,
              aktion_erforderlich := false, nachbuchung_nicht_moeglich := true })
    else if kann_nachbuchen then
      (increase_highspeed_volume st3 refill_success,
       { erfolg_abruf := true, refill_invoked := true,
         aktion_erforderlich := true, nachbuchung_nicht_moeglich := false })
    else
      (st3, { erfolg_abruf := true, refill_invoked := false,
              aktion_erforderlich := false, nachbuchung_nicht_moeglich := false })

/-- C5: in every poll cycle that obtains a valid snapshot, the refill
request is issued if and only if the snapshot's `kann_nachbuchen` flag is
true; the `Nachbuchung nicht möglich` outcome is reported exactly when the
remaining volume is below the threshold and the flag is false. -/
theorem refill_invoked_iff_kann_nachbuchen
    (st : MonitorState) (s : Summary) (dv : DataVolume) (t : ℚ) (rs : Bool)
    (hs : s.datenvolumen = some dv) :
    ((check_data_usage st s t rs).2.refill_invoked = dv.kann_nachbuchen.getD false) ∧
    ((check_data_usage st s t rs).2.nachbuchung_nicht_moeglich = true ↔
      (dv.highspeed_limit_gb.getD 0 - dv.verbraucht_gb.getD 0 < st.threshold_gb ∧
       dv.kann_nachbuchen.getD false = false)) := by
  obtain ⟨so⟩ := s
  simp only at hs
  subst hs
  cases hkann : dv.kann_nachbuchen.getD false <;>
    by_cases hbel : dv.highspeed_limit_gb.getD 0 - dv.verbraucht_gb.getD 0 < st.threshold_gb <;>
      simp [check_data_usage, hkann, hbel]

/-- C5 witness: snapshot 9.8 GB consumed of 10 GB, threshold 1 GB,
`kann_nachbuchen` true: the refill is invoked and no
`Nachbuchung nicht möglich` outcome is reported. -/
theorem refill_invoked_iff_kann_nachbuchen_witness :
    (({ datenvolumen := some { verbraucht_gb := some (49/5), highspeed_limit_gb := some 10,
                               kann_nachbuchen := some true } : Summary}.datenvolumen
        = some { verbraucht_gb := some (49/5), highspeed_limit_gb := some 10,
                 kann_nachbuchen := some true })) ∧
    ((check_data_usage
        { threshold_gb := 1, check_interval_seconds := 60,
          original_check_interval_seconds := 60, fast_check_interval_seconds := 5,
          max_check_interval_seconds := 300, initial_dynamic_interval_seconds := 60,
          dynamic_interval := false, below_threshold := false,
          first_dynamic_check := true, history := none, last_check := none }
        { datenvolumen := some { verbraucht_gb := some (49/5), highspeed_limit_gb := some 10,
                                 kann_nachbuchen := some true } }
        0 true).2.refill_invoked = true) :=
  ⟨rfl,
   (refill_invoked_iff_kann_nachbuchen
     { threshold_gb := 1, check_interval_seconds := 60,
       original_check_interval_seconds := 60, fast_check_interval_seconds := 5,
       max_check_interval_seconds := 300, initial_dynamic_interval_seconds := 60,
       dynamic_interval := false, below_threshold := false,
       first_dynamic_check := true, history := none, last_check := none }
     { datenvolumen := some { verbraucht_gb := some (49/5), highspeed_limit_gb := some 10,
                              kann_nachbuchen := some true } }
     { verbraucht_gb := some (49/5), highspeed_limit_gb := some 10,
       kann_nachbuchen := some true }
     0 true rfl).1⟩

/-- C8: with `dynamic_interval` disabled, a cycle with a valid snapshot
follows the edge-triggered two-state hysteresis: switch to the fast interval
exactly when `remaining < threshold` first becomes true, do not re-apply it
while the sticky flag stays set, switch back to the original interval
exactly when the condition first ceases, and after a successful refill while
the flag is set, clear the flag and reset the interval to the original value
within the same cycle. -/
theorem static_hysteresis_behavior
    (st : MonitorState) (s : Summary) (dv : DataVolume) (t : ℚ) (rs : Bool)
    (hdyn : st.dynamic_interval = false) (hs : s.datenvolumen = some dv) :
    (dv.highspeed_limit_gb.getD 0 - dv.verbraucht_gb.getD 0 < st.threshold_gb →
      st.below_threshold = false →
      ¬ (dv.kann_nachbuchen.getD false = true ∧ rs = true) →
      (check_data_usage st s t rs).1.check_interval_seconds = st.fast_check_interval_seconds ∧
      (check_data_usage st s t rs).1.below_threshold = true) ∧
    (dv.highspeed_limit_gb.getD 0 - dv.verbraucht_gb.getD 0 < st.threshold_gb →
      st.below_threshold = true →
      ¬ (dv.kann_nachbuchen.getD false = true ∧ rs = true) →
      (check_data_usage st s t rs).1.check_interval_seconds = st.check_interval_seconds ∧
      (check_data_usage st s t rs).1.below_threshold = true) ∧
    (¬ dv.highspeed_limit_gb.getD 0 - dv.verbraucht_gb.getD 0 < st.threshold_gb →
      st.below_threshold = true →
      (check_data_usage st s t rs).1.check_interval_seconds = st.original_check_interval_seconds ∧
      (check_data_usage st s t rs).1.below_threshold = false) ∧
    (¬ dv.highspeed_limit_gb.getD 0 - dv.verbraucht_gb.getD 0 < st.threshold_gb →
      st.below_threshold = false →
      (check_data_usage st s t rs).1.check_interval_seconds = st.check_interval_seconds ∧
      (check_data_usage st s t rs).1.below_threshold = false) ∧
    (dv.highspeed_limit_gb.getD 0 - dv.verbraucht_gb.getD 0 < st.threshold_gb →
      dv.kann_nachbuchen.getD false = true → rs = true →
      (check_data_usage st s t rs).1.below_threshold = false ∧
      (check_data_usage st s t rs).1.check_interval_seconds = st.original_check_interval_seconds) := by
  obtain ⟨so⟩ := s
  simp only at hs
  subst hs
  refine ⟨?_, ?_, ?_, ?_, ?_⟩
  · intro hb hf hnr
    cases hkann : dv.kann_nachbuchen.getD false with
    | true =>
      cases hrs : rs with
      | true => exact absurd ⟨hkann, hrs⟩ hnr
      | false =>
        simp [check_data_usage, interval_step, history_step,
          increase_highspeed_volume, update_check_interval, hdyn, hf, hkann, hrs, hb]
    | false =>
      cases hrs : rs <;>
        simp [check_data_usage, interval_step, history_step,
          increase_highspeed_volume, update_check_interval, hdyn, hf, hkann, hrs, hb]
  · intro hb hf hnr
    cases hkann : dv.kann_nachbuchen.getD false with
    | true =>
      cases hrs : rs with
      | true => exact absurd ⟨hkann, hrs⟩ hnr
      | false =>
        simp [check_data_usage, interval_step, history_step,
          increase_highspeed_volume, update_check_interval, hdyn, hf, hkann, hrs, hb]
    | false =>
      cases hrs : rs <;>
        simp [check_data_usage, interval_step, history_step,
          increase_highspeed_volume, update_check_interval, hdyn, hf, hkann, hrs, hb]
  · intro hb hf
    cases hkann : dv.kann_nachbuchen.getD false <;> cases hrs : rs <;>
      simp [check_data_usage, interval_step, history_step,
        increase_highspeed_volume, update_check_interval, hdyn, hf, hkann, hrs, eq_false hb]
  · intro hb hf
    cases hkann : dv.kann_nachbuchen.getD false <;> cases hrs : rs <;>
      simp [check_data_usage, interval_step, history_step,
        increase_highspeed_volume, update_check_interval, hdyn, hf, hkann, hrs, eq_false hb]
  · intro hb hk hr
    cases hfl : st.below_threshold <;>
      simp [check_data_usage, interval_step, history_step,
        increase_highspeed_volume, update_check_interval, hdyn, hb, hk, hr, hfl]

/-- C8 witness: non-dynamic monitor, flag set, snapshot below threshold with
`kann_nachbuchen` true and a successful refill: the flag is cleared and the
interval is back at the original 60 seconds in the same cycle. -/
theorem static_hysteresis_behavior_witness :
    (({ threshold_gb := 1, check_interval_seconds := 5,
        original_check_interval_seconds := 60, fast_check_interval_seconds := 5,
        max_check_interval_seconds := 300, initial_dynamic_interval_seconds := 60,
        dynamic_interval := false, below_threshold := true,
        first_dynamic_check := true, history := none,
        last_check := none : MonitorState}.dynamic_interval = false) ∧
      ((10 : ℚ) - 49/5 < 1)) ∧
    ((check_data_usage
        { threshold_gb := 1, check_interval_seconds := 5,
          original_check_interval_seconds := 60, fast_check_interval_seconds := 5,
          max_check_interval_seconds := 300, initial_dynamic_interval_seconds := 60,
          dynamic_interval := false, below_threshold := true,
          first_dynamic_check := true, history := none, last_check := none }
        { datenvolumen := some { verbraucht_gb := some (49/5), highspeed_limit_gb := some 10,
                                 kann_nachbuchen := some true } }
        0 true).1.below_threshold = false ∧
     (check_data_usage
        { threshold_gb := 1, check_interval_seconds := 5,
          original_check_interval_seconds := 60, fast_check_interval_seconds := 5,
          max_check_interval_seconds := 300, initial_dynamic_interval_seconds := 60,
          dynamic_interval := false, below_threshold := true,
          first_dynamic_check := true, history := none, last_check := none }
        { datenvolumen := some { verbraucht_gb := some (49/5), highspeed_limit_gb := some 10,
                                 kann_nachbuchen := some true } }
        0 true).1.check_interval_seconds = 60) :=
  ⟨⟨rfl, by norm_num⟩,
   ((static_hysteresis_behavior
      { threshold_gb := 1, check_interval_seconds := 5,
        original_check_interval_seconds := 60, fast_check_interval_seconds := 5,
        max_check_interval_seconds := 300, initial_dynamic_interval_seconds := 60,
        dynamic_interval := false, below_threshold := true,
        first_dynamic_check := true, history := none, last_check := none }
      { datenvolumen := some { verbraucht_gb := some (49/5), highspeed_limit_gb := some 10,
                               kann_nachbuchen := some true } }
      { verbraucht_gb := some (49/5), highspeed_limit_gb := some 10,
        kann_nachbuchen := some true }
      0 true rfl rfl).2.2.2.2 (by norm_num) rfl rfl)⟩

/-- One dynamic-mode cycle keeps the sticky flag clear and the dynamic mode
set, its resulting state is independent of the refill outcome, and past the
first dynamic check the interval is the estimator's output. -/
theorem dynamic_cycle_state_aux
    (st : MonitorState) (s : Summary) (t : ℚ) (rs rsB : Bool)
    (hdyn : st.dynamic_interval = true) (hflag : st.below_threshold = false) :
    ((check_data_usage st s t rs).1.below_threshold = false) ∧
    ((check_data_usage st s t rs).1.dynamic_interval = true) ∧
    ((check_data_usage st s t rs).1 = (check_data_usage st s t rsB).1) ∧
    (st.first_dynamic_check = false →
      ∀ dv, s.datenvolumen = some dv →
      (check_data_usage st s t rs).1.check_interval_seconds =
        (dynamic_next_interval (history_step st s t) s t).1) := by
  obtain ⟨so⟩ := s
  cases so with
  | none =>
    refine ⟨hflag, hdyn, rfl, ?_⟩
    intro _ dv hdv
    exact absurd hdv (by simp)
  | some dv =>
    cases hfd : st.first_dynamic_check <;>
      cases hkann : dv.kann_nachbuchen.getD false <;>
        by_cases hbel : dv.highspeed_limit_gb.getD 0 - dv.verbraucht_gb.getD 0 < st.threshold_gb <;>
          simp [check_data_usage, interval_step, history_step, increase_highspeed_volume,
            update_check_interval, dynamic_next_interval, hdyn, hflag, hfd, hkann, hbel]

/-- A monitoring run: fold the poll cycles over a list of inputs, each a
fetched summary, the wall-clock time and the refill outcome. -/
def run_cycles (st : MonitorState) : List (Summary × ℚ × Bool) → MonitorState
  | [] => st
  | (s, t, b) :: rest => run_cycles (check_data_usage st s t b).1 rest

/-- C10: in a run with `dynamic_interval` enabled starting with the sticky
flag clear, the flag is still clear after every sequence of poll cycles and
refills; a cycle's state does not depend on the refill outcome (the
post-refill interval reset never executes in dynamic mode); and past the
first dynamic check the interval stays at exactly the estimator's output. -/
theorem dynamic_below_threshold_invariant
    (st : MonitorState) (inputs : List (Summary × ℚ × Bool))
    (hdyn : st.dynamic_interval = true) (hflag : st.below_threshold = false) :
    ((run_cycles st inputs).below_threshold = false) ∧
    (∀ (s : Summary) (t : ℚ) (rs rsB : Bool),
      (check_data_usage st s t rs).1 = (check_data_usage st s t rsB).1) ∧
    (∀ (s : Summary) (t : ℚ) (rs : Bool) (dv : DataVolume),
      st.first_dynamic_check = false → s.datenvolumen = some dv →
      (check_data_usage st s t rs).1.check_interval_seconds =
        (dynamic_next_interval (history_step st s t) s t).1) := by
  refine ⟨?_,
    fun s t rs rsB => (dynamic_cycle_state_aux st s t rs rsB hdyn hflag).2.2.1,
    fun s t rs dv hfd hdv =>
      (dynamic_cycle_state_aux st s t rs rs hdyn hflag).2.2.2 hfd dv hdv⟩
  induction inputs generalizing st with
  | nil => exact hflag
  | cons i rest ih =>
    obtain ⟨s, t, b⟩ := i
    exact ih (check_data_usage st s t b).1
      (dynamic_cycle_state_aux st s t b b hdyn hflag).2.1
      (dynamic_cycle_state_aux st s t b b hdyn hflag).1

/-- C10 witness: dynamic monitor past its first check, flag clear, one cycle
with a below-threshold snapshot, `kann_nachbuchen` true and a successful
refill: the flag remains clear. -/
theorem dynamic_below_threshold_invariant_witness :
    (({ threshold_gb := 1, check_interval_seconds := 60,
        original_check_interval_seconds := 60, fast_check_interval_seconds := 5,
        max_check_interval_seconds := 300, initial_dynamic_interval_seconds := 60,
        dynamic_interval := true, below_threshold := false,
        first_dynamic_check := false, history := none,
        last_check := none : MonitorState}.dynamic_interval = true)) ∧
    ((run_cycles
        { threshold_gb := 1, check_interval_seconds := 60,
          original_check_interval_seconds := 60, fast_check_interval_seconds := 5,
          max_check_interval_seconds := 300, initial_dynamic_interval_seconds := 60,
          dynamic_interval := true, below_threshold := false,
          first_dynamic_check := false, history := none, last_check := none }
        [({ datenvolumen := some { verbraucht_gb := some (49/5), highspeed_limit_gb := some 10,
                                   kann_nachbuchen := some true } }, 0, true)]).below_threshold
      = false) :=
  ⟨rfl,
   (dynamic_below_threshold_invariant
      { threshold_gb := 1, check_interval_seconds := 60,
        original_check_interval_seconds := 60, fast_check_interval_seconds := 5,
        max_check_interval_seconds := 300, initial_dynamic_interval_seconds := 60,
        dynamic_interval := true, below_threshold := false,
        first_dynamic_check := false, history := none, last_check := none }
      [({ datenvolumen := some { verbraucht_gb := some (49/5), highspeed_limit_gb := some 10,
                                 kann_nachbuchen := some true } }, 0, true)]
      rfl rfl).1⟩

/-!
## Lock discipline of `DataMonitor` (C7)

`self.interval_lock` is a non-reentrant `threading.Lock`.  We record, from the
source text, the sequence of acquire/release operations a single thread
issues on this one lock along a control path, and check whether the thread
ever attempts to acquire the lock while it already holds it — on a
non-reentrant lock that attempt blocks forever (self-deadlock).
-/

inductive LockOp where
  | acq : LockOp
  | rel : LockOp
deriving DecidableEq

/-- Scans a single-thread trace of operations on one non-reentrant lock and
reports whether an acquire happens while the lock is already held. -/
def reacquires_held (held : Bool) : List LockOp → Bool
  | [] => false
  | LockOp.acq :: rest => if held then true else reacquires_held true rest
  | LockOp.rel :: rest => reacquires_held false rest

/-- Lock operations of `DataMonitor.update_check_interval`
(monitor.py:285: `with self.interval_lock:` around the whole body). -/
def update_check_interval_lock_ops : List LockOp := [LockOp.acq, LockOp.rel]

/-- Lock operations of one dynamic-mode `check_data_usage` cycle:
the history update (`with self.interval_lock:` at monitor.py:132, present
when a previous fetch exists), then the dynamic-interval block
(`with self.interval_lock:` at monitor.py:157) which calls
`self.update_check_interval(next_interval)` at monitor.py:197 while still
inside that block. -/
def dynamic_cycle_lock_ops (has_last_check : Bool) : List LockOp :=
  (if has_last_check then [LockOp.acq, LockOp.rel] else []) ++
    [LockOp.acq] ++ update_check_interval_lock_ops ++ [LockOp.rel]

/-- C7: the claim says a dynamic-mode poll cycle never attempts to acquire
the non-reentrant interval lock while already holding it.  In the code, the
dynamic branch holds the lock (monitor.py:157) when it calls
`update_check_interval`, which acquires the same lock again
(monitor.py:285): the trace attempts a re-acquire — a self-deadlock — both
with and without a previous fetch. -/
theorem dynamic_cycle_reacquires_interval_lock :
    reacquires_held false (dynamic_cycle_lock_ops false) = true ∧
    reacquires_held false (dynamic_cycle_lock_ops true) = true := by
  decide

/-!
## `src/api/usability.py` — consumption fetch and 403 handling (C4)

The fetch is driven by the sequence of upstream HTTP responses it would
receive, one per request, and by whether a re-login with the stored
credentials succeeds.  The data payload is abstracted to a number.
`FetchOutcome` records the returned data ({} = `none`), how many
re-authentication attempts were made, and how many HTTP requests were sent.
-/

inductive FetchResp where
  | ok : ℕ → FetchResp
  | forbidden : FetchResp
  | fail : FetchResp
deriving DecidableEq

structure FetchOutcome where
  result : Option ℕ
  logins : ℕ
  requests : ℕ
deriving DecidableEq

/-- `ConsumptionAPI.get_consumption_aggregations` (usability.py:159-231),
the password-credential variant.  On HTTP 200 the JSON is returned; on 403,
if a username, a password and an auth object are stored, one re-login is
attempted and on success the whole method is re-entered (usability.py:221);
otherwise, and on any other error, `{}` is returned.  `has_creds` says
whether stored username/password credentials are available, `login_ok`
whether a re-login attempt succeeds. -/
def get_consumption_aggregations (has_creds login_ok : Bool) :
    List FetchResp → FetchOutcome
  | [] => ⟨none, 0, 0⟩
  | FetchResp.ok p :: _ => ⟨some p, 0, 1⟩
  | FetchResp.fail :: _ => ⟨none, 0, 1⟩
  | FetchResp.forbidden :: rest =>
    if has_creds then
      if login_ok then
        let o := get_consumption_aggregations has_creds login_ok rest
        ⟨o.result, o.logins + 1, o.requests + 1⟩
      else ⟨none, 1, 1⟩
    else ⟨none, 0, 1⟩

/-- `ConsumptionAPI.get_guest_consumption_aggregations`
(usability.py:863-932): any status other than 200 returns `{}` immediately —
no re-authentication, no retry. -/
def get_guest_consumption_aggregations : List FetchResp → FetchOutcome
  | [] => ⟨none, 0, 0⟩
  | FetchResp.ok p :: _ => ⟨some p, 0, 1⟩
  | FetchResp.forbidden :: _ => ⟨none, 0, 1⟩
  | FetchResp.fail :: _ => ⟨none, 0, 1⟩

/-- Number of leading 403 responses in a trace. -/
def leading_forbidden : List FetchResp → ℕ
  | FetchResp.forbidden :: rest => leading_forbidden rest + 1
  | _ => 0

/-- The trace after the leading 403 responses. -/
def after_forbidden : List FetchResp → List FetchResp
  | FetchResp.forbidden :: rest => after_forbidden rest
  | rs => rs

/-- C4 counterexample: the claim says a 403 triggers exactly one
re-authentication and exactly one retry for whichever credential kind was
configured.  With password credentials and responses 403, 403, 200 the code
performs two re-authentications and three requests (and succeeds); the
guest-configured consumption fetch performs zero re-authentications on a
403. -/
theorem consumption_retry_claim_cx :
    (get_consumption_aggregations true true
        [FetchResp.forbidden, FetchResp.forbidden, FetchResp.ok 1]
      = ⟨some 1, 2, 3⟩) ∧
    (get_guest_consumption_aggregations [FetchResp.forbidden, FetchResp.ok 1]
      = ⟨none, 0, 1⟩) := by
  decide

/-- C4 (amended): on a 403 the password-configured client re-authenticates
and re-enters the fetch recursively — one re-login and one retry per
consecutive 403 while re-login succeeds, returning the first non-403
outcome — and reports failure (`{}`) when re-login fails, without crashing;
the guest-configured consumption fetch performs no re-authentication at all
and reports failure on any non-200; a poll cycle that obtains no valid data
leaves the monitor state (history included) unchanged. -/
theorem consumption_retry_characterization :
    (∀ (st : MonitorState) (t : ℚ) (b : Bool),
      (check_data_usage st { datenvolumen := none } t b).1 = st) ∧
    (∀ rs, (get_guest_consumption_aggregations rs).logins = 0) ∧
    (∀ rest, (get_guest_consumption_aggregations (FetchResp.forbidden :: rest)).result
      = none) ∧
    (∀ rest, get_consumption_aggregations true false (FetchResp.forbidden :: rest)
      = ⟨none, 1, 1⟩) ∧
    (∀ rs, (get_consumption_aggregations true true rs).logins = leading_forbidden rs) ∧
    (∀ rs, (get_consumption_aggregations true true rs).result =
      (match after_forbidden rs with
       | FetchResp.ok p :: _ => some p
       | _ => none)) ∧
    (∀ rs, (get_consumption_aggregations true true rs).requests =
      leading_forbidden rs + (if after_forbidden rs = [] then 0 else 1)) := by
  have key : ∀ rs,
      (get_consumption_aggregations true true rs).logins = leading_forbidden rs ∧
      (get_consumption_aggregations true true rs).result =
        (match after_forbidden rs with
         | FetchResp.ok p :: _ => some p
         | _ => none) ∧
      (get_consumption_aggregations true true rs).requests =
        leading_forbidden rs + (if after_forbidden rs = [] then 0 else 1) := by
    intro rs
    induction rs with
    | nil => exact ⟨rfl, rfl, rfl⟩
    | cons r rest ih =>
      cases r with
      | ok p => exact ⟨rfl, rfl, rfl⟩
      | fail => exact ⟨rfl, rfl, rfl⟩
      | forbidden =>
        refine ⟨?_, ih.2.1, ?_⟩
        · show (get_consumption_aggregations true true rest).logins + 1
            = leading_forbidden rest + 1
          rw [ih.1]
        · show (get_consumption_aggregations true true rest).requests + 1
            = leading_forbidden rest + 1 + (if after_forbidden rest = [] then 0 else 1)
          rw [ih.2.2]
          exact Nat.add_right_comm _ _ _
  exact ⟨fun st t b => rfl,
    fun rs => by cases rs with
      | nil => rfl
      | cons r rest => cases r <;> rfl,
    fun rest => rfl, fun rest => rfl,
    fun rs => (key rs).1, fun rs => (key rs).2.1, fun rs => (key rs).2.2⟩

/-- C4 amended-claim witness: evaluation at the concrete trace 403, 200
(one re-login, two requests, payload returned) through the theorem. -/
theorem consumption_retry_characterization_witness :
    (get_consumption_aggregations true true [FetchResp.forbidden, FetchResp.ok 5]).logins
      = leading_forbidden [FetchResp.forbidden, FetchResp.ok 5] :=
  consumption_retry_characterization.2.2.2.2.1 [FetchResp.forbidden, FetchResp.ok 5]

/-!
## `ConsumptionAPI.parse_data_volume` (usability.py:233-333) (C6)

The upstream JSON is modelled by the keys the parser reads.  A key that may
be absent is an `Option` field; a `{"value": v}` wrapper whose key or value
may be missing is collapsed into one `Option` (the parser treats both
absences identically).  `dataUpdatedAt` either parses as an ISO date
(yielding a timestamp) or does not (the parser then falls back to the
ambient clock, passed in as `now`); the pretty-printed date string and the
refill URL carry no information for the claims and are dropped.  The
defensive `try/except` of the source cannot fire in this typed model, so the
embedded parser is total.
-/

/-- Outcome of `datetime.fromisoformat` on the `dataUpdatedAt` string. -/
inductive UpdatedAtField where
  | parsed : ℚ → UpdatedAtField
  | unparsed : UpdatedAtField
deriving DecidableEq

/-- The `unlimitedRefill` sub-dictionary. -/
structure RefillDict where
  has_refill_action : Bool := false
  booked : Option (List (Option ℚ × Option ℚ)) := none
deriving DecidableEq

/-- A volume dictionary as read by the parser (either `data["dataVolume"]`
or, in the guest format, the top-level object itself). -/
structure VolumeDict where
  dataUpdatedAt : Option UpdatedAtField := none
  highSpeedLimit : Option ℚ := none
  totalConsumption : Option ℚ := none
  resetDay : Option ℤ := none
  unlimitedRefill : Option RefillDict := none
deriving DecidableEq

/-- The full upstream payload: the optional `dataVolume` key (regular
format) and the top-level keys (guest format). -/
structure UpstreamPayload where
  dataVolume : Option VolumeDict := none
  top : VolumeDict := {}
deriving DecidableEq

/-- The parser's result dictionary (usability.py:246-257 defaults). -/
structure ParsedVolume where
  aktualisiert_timestamp : Option ℚ := none
  highspeed_limit_gb : ℚ := 0
  verbraucht_gb : ℚ := 0
  verbraucht_prozent : ℚ := 0
  verbleibend_gb : ℚ := 0
  reset_tag : ℤ := 1
  nachbuchungen : List (ℚ × ℚ) := []
  kann_nachbuchen : Bool := false
deriving DecidableEq

/-- Which dictionary the parser reads the volume keys from
(usability.py:260-271): guest format is detected by the absence of
`dataVolume` together with the presence of a top-level `highSpeedLimit`;
in the regular format a payload without `dataVolume` is rejected. -/
def selected_volume_dict (data : UpstreamPayload) : Option VolumeDict :=
  match data.dataVolume with
  | some v => some v
  | none => if data.top.highSpeedLimit.isSome then some data.top else none

/-- `ConsumptionAPI.parse_data_volume`.  The percentage and the remaining
volume are only computed when the parsed limit is positive
(usability.py:326-328). -/
def parse_data_volume (data : UpstreamPayload) (now : ℚ) : ParsedVolume :=
  match selected_volume_dict data with
  | none => {}
  | some data_volume =>
    let ts : Option ℚ :=
      match data_volume.dataUpdatedAt with
      | none => none
      | some (UpdatedAtField.parsed t) => some t
      | some UpdatedAtField.unparsed => some now
    let limit := data_volume.highSpeedLimit.getD 0
    let verbraucht :=
      match data_volume.totalConsumption with
      | some v => pyRound 2 v
      | none => 0
    let reset := data_volume.resetDay.getD 1
    let kann :=
      match data_volume.unlimitedRefill with
      | some r => r.has_refill_action
      | none => false
    let nachb :=
      match data_volume.unlimitedRefill with
      | some r =>
        (r.booked.getD []).map fun p =>
          ((p.1.map (pyRound 2)).getD 0, (p.2.map (pyRound 2)).getD 0)
      | none => []
    let prozent := if 0 < limit then pyRound 1 (verbraucht / limit * 100) else 0
    let verbleibend := if 0 < limit then pyRound 2 (limit - verbraucht) else 0
    { aktualisiert_timestamp := ts, highspeed_limit_gb := limit,
      verbraucht_gb := verbraucht, verbraucht_prozent := prozent,
      verbleibend_gb := verbleibend, reset_tag := reset,
      nachbuchungen := nachb, kann_nachbuchen := kann }

/-- The parsed snapshot wrapped back into the volume dictionary the monitor
and the interval calculator read (`summary["datenvolumen"]`,
usability.py:495-502): the keys are always present in the parse result. -/
def ParsedVolume.toDataVolume (p : ParsedVolume) : DataVolume :=
  { verbraucht_gb := some p.verbraucht_gb,
    highspeed_limit_gb := some p.highspeed_limit_gb,
    aktualisiert_timestamp := p.aktualisiert_timestamp,
    kann_nachbuchen := some p.kann_nachbuchen }

/-- C6 counterexample: the claim says the rate estimator treats a zeroed
snapshot as "insufficient data", i.e. returns `(max_interval, None)`.  For
the unparseable payload `{}` the parser yields the zeroed snapshot, and the
estimator (threshold 1 GB, bounds 30/300 s) returns `(min_interval, 0) =
(30, 0)` — the already-at-threshold outcome, not `(300, none)`. -/
theorem zeroed_snapshot_estimator_cx :
    (parse_data_volume {} 0 = {}) ∧
    (calculate_next_check_interval
        { datenvolumen := some (parse_data_volume {} 0).toDataVolume }
        1 300 30 (7/10) 0 = (30, some 0)) ∧
    ((30, (some 0 : Option ℚ)) ≠ ((300 : ℤ), (none : Option ℚ))) := by
  refine ⟨rfl, ?_, by simp⟩
  norm_num [calculate_next_check_interval, parse_data_volume, selected_volume_dict,
    ParsedVolume.toDataVolume]

/-- C6 (amended): whenever the payload cannot be parsed or reports a
highspeed limit of 0, the parsed snapshot has percentage 0 and remaining 0
(the division is guarded, nothing is raised), and on such a snapshot the
rate estimator — with a nonnegative threshold and nonnegative parsed
consumption — returns `(min_interval, 0)`, treating the cycle as already at
or below the threshold; it never crashes. -/
theorem zeroed_snapshot_safe
    (data : UpstreamPayload) (now : ℚ)
    (hlim : (parse_data_volume data now).highspeed_limit_gb = 0) :
    ((parse_data_volume data now).verbraucht_prozent = 0 ∧
     (parse_data_volume data now).verbleibend_gb = 0) ∧
    (∀ (th sf nowB : ℚ) (mx mn : ℤ), 0 ≤ th →
      0 ≤ (parse_data_volume data now).verbraucht_gb →
      calculate_next_check_interval
        { datenvolumen := some (parse_data_volume data now).toDataVolume }
        th mx mn sf nowB = (mn, some 0)) := by
  constructor
  · cases h : selected_volume_dict data with
    | none => constructor <;> simp [parse_data_volume, h]
    | some vd =>
      have hl : vd.highSpeedLimit.getD 0 = 0 := by
        have h2 := hlim
        simp only [parse_data_volume, h] at h2
        exact h2
      constructor <;> simp [parse_data_volume, h, hl]
  · intro th sf nowB mx mn hth hvb
    simp only [calculate_next_check_interval, ParsedVolume.toDataVolume, Option.getD_some]
    rw [hlim, if_pos (by linarith)]

/-- C6 witness: a payload whose `dataVolume` reports `highSpeedLimit = 0`
and a consumption of 3 GB: percentage and remaining are 0 and the estimator
(threshold 1 GB, bounds 30/300 s) returns `(30, 0)`. -/
theorem zeroed_snapshot_safe_witness :
    ((parse_data_volume
        { dataVolume := some { highSpeedLimit := some 0, totalConsumption := some 3 } }
        0).highspeed_limit_gb = 0) ∧
    ((parse_data_volume
        { dataVolume := some { highSpeedLimit := some 0, totalConsumption := some 3 } }
        0).verbraucht_prozent = 0 ∧
     (parse_data_volume
        { dataVolume := some { highSpeedLimit := some 0, totalConsumption := some 3 } }
        0).verbleibend_gb = 0) ∧
    (calculate_next_check_interval
        { datenvolumen := some (parse_data_volume
            { dataVolume := some { highSpeedLimit := some 0, totalConsumption := some 3 } }
            0).toDataVolume }
        1 300 30 (7/10) 0 = (30, some 0)) :=
  have hlim : (parse_data_volume
      { dataVolume := some { highSpeedLimit := some 0, totalConsumption := some 3 } }
      0).highspeed_limit_gb = 0 := by
    norm_num [parse_data_volume, selected_volume_dict]
  ⟨hlim,
   (zeroed_snapshot_safe
      { dataVolume := some { highSpeedLimit := some 0, totalConsumption := some 3 } }
      0 hlim).1,
   (zeroed_snapshot_safe
      { dataVolume := some { highSpeedLimit := some 0, totalConsumption := some 3 } }
      0 hlim).2 1 (7/10) 0 300 30 (by norm_num)
     (by norm_num [parse_data_volume, selected_volume_dict, pyRound, roundHalfEven])⟩

end OneUndOne
